import Mathlib

set_option maxRecDepth 200000

/-!
Shallow embedding of the TidyFeed bot worker sources
(`tidyfeed-bot-worker/bot.py`, `tidyfeed-bot-worker/bot_direct.py`,
`tidyfeed-python-worker/bot_poller.py`): mention parsing, trigger
detection, tweet-detail resolution, dedup state, backend dispatch and
the per-mention processing logic, together with theorems checking the
specification's claims against these definitions.
-/

/-- Python substring test `needle in hay` over character lists:
true iff `needle` occurs contiguously inside the list. -/
def subOccurs (needle : List Char) : List Char → Bool
  | [] => needle.isEmpty
  | c :: rest => needle.isPrefixOf (c :: rest) || subOccurs needle rest

/-- Python `needle in hay` for strings. -/
def strHasSubstr (hay needle : String) : Bool :=
  subOccurs needle.toList hay.toList

/-- Python truthiness of an optional string: `None` and `''` are falsy
(`if not reply_to`, `if not text`). -/
def pyFalsy : Option String → Bool
  | none => true
  | some s => s.isEmpty

/-- Python `a or b` on optional strings (`None` and `''` fall through to `b`). -/
def pyOrStr (a b : Option String) : Option String :=
  if pyFalsy a then b else a

/-- bot.py line 46 and bot_direct.py line 44: `MAX_STORED_IDS = 1000`. -/
def MAX_STORED_IDS : Nat := 1000

/-- bot.py line 43 and bot_direct.py line 41: `ERROR_SLEEP_SECONDS = 300`
(defined in both workers; used by neither loop). -/
def ERROR_SLEEP_SECONDS : Nat := 300

/-- Default of `POLL_MIN_SECONDS` (bot.py line 41, bot_direct.py line 39). -/
def POLL_MIN_SECONDS_default : Nat := 45

/-- Default of `POLL_MAX_SECONDS` (bot.py line 42, bot_direct.py line 40). -/
def POLL_MAX_SECONDS_default : Nat := 90

/-- bot.py line 48 / bot_direct.py line 46: `TRIGGER_WORDS`. -/
def TRIGGER_WORDS : List String := ["save", "keep", "收藏", "保存", "tidy", "bookmark"]

/-- Python `text.lower()`, modelled per character. `Char.toLower`
lowers the ASCII range and leaves the CJK trigger characters unchanged,
matching `str.lower()` on the character repertoire used here. -/
def strToLower (s : String) : String :=
  String.mk (s.toList.map Char.toLower)

/-- `contains_trigger` (bot.py lines 99-103, bot_direct.py lines 234-236):
case-insensitive substring match of any trigger word. bot.py's extra
`if not text: return False` guard coincides with this formula on `""`
since every trigger word is nonempty. -/
def contains_trigger (text : String) : Bool :=
  TRIGGER_WORDS.any (fun t => strHasSubstr (strToLower text) t)

/-- A user object from `globalObjects.users` (fields read via `.get`,
absent keys modelled as `none`). -/
structure UserObj where
  screen_name : Option String := none
  name : Option String := none
  deriving DecidableEq, Repr

/-- A tweet object from `globalObjects.tweets`. -/
structure TweetObj where
  full_text : Option String := none
  user_id_str : Option String := none
  in_reply_to_status_id_str : Option String := none
  created_at : Option String := none
  deriving DecidableEq, Repr

/-- A raw entry of the tweets mapping: either a well-formed tweet object
or a malformed value on which the per-entry field accesses raise
(caught only by the try/except around the whole loop). -/
inductive RawTweet where
  | obj (t : TweetObj)
  | malformed
  deriving DecidableEq, Repr

/-- `data['globalObjects']` with its two mappings; list order models the
(insertion-ordered) dict iteration order. -/
structure GlobalObjects where
  tweets : List (String × RawTweet) := []
  users : List (String × UserObj) := []
  deriving DecidableEq, Repr

/-- Top-level mentions/search payload; `none` models a payload without a
`globalObjects` key (`data.get('globalObjects', {})`). -/
structure MentionsResponse where
  globalObjects : Option GlobalObjects := none
  deriving DecidableEq, Repr

/-- A normalized mention record (bot.py lines 122-129, bot_direct.py
lines 202-209). -/
structure MentionRecord where
  id : String
  text : String := ""
  user_handle : String := ""
  user_name : String := ""
  in_reply_to_status_id : Option String := none
  created_at : Option String := none
  deriving DecidableEq, Repr

/-- `users.get(user_id, {})` where `user_id = tweet.get('user_id_str')`
may be `None`. -/
def lookupUser (users : List (String × UserObj)) : Option String → UserObj
  | none => {}
  | some uid => (List.lookup uid users).getD {}

/-- Normalization of one well-formed tweet entry (bot.py lines 118-129,
bot_direct.py lines 198-209; the two loops are identical). -/
def normalize_mention (users : List (String × UserObj)) (tweet_id : String)
    (t : TweetObj) : MentionRecord :=
  { id := tweet_id,
    text := t.full_text.getD "",
    user_handle := (lookupUser users t.user_id_str).screen_name.getD "",
    user_name := (lookupUser users t.user_id_str).name.getD "",
    in_reply_to_status_id := t.in_reply_to_status_id_str,
    created_at := t.created_at }

/-- The `for tweet_id, tweet in tweets.items()` loop. A malformed entry
raises; the exception is caught by the single try/except around the
whole loop (bot.py lines 113-131, bot_direct.py lines 193-211), so the
records accumulated before it are returned and the remaining entries
are never normalized. -/
def parse_mentions_loop (users : List (String × UserObj)) :
    List (String × RawTweet) → List MentionRecord
  | [] => []
  | (tweet_id, RawTweet.obj t) :: rest =>
      normalize_mention users tweet_id t :: parse_mentions_loop users rest
  | (_, RawTweet.malformed) :: _ => []

/-- `parse_mentions_response` (bot.py lines 106-133) and the identical
`XApiClient._parse_search_results` (bot_direct.py lines 190-213). -/
def parse_mentions_response (data : MentionsResponse) : List MentionRecord :=
  match data.globalObjects with
  | none => []
  | some g => parse_mentions_loop g.users g.tweets

/-- Outcome of the raw fetch: a payload, or a network/transport failure
raised inside the fetch. -/
inductive FetchOutcome where
  | ok (data : MentionsResponse)
  | networkError
  deriving Repr

/-- `fetch_mentions_raw` (bot.py lines 167-202) / `search_mentions`
(bot_direct.py lines 150-188): any exception is caught and an empty
list is returned. -/
def fetch_mentions_raw : FetchOutcome → List MentionRecord
  | FetchOutcome.networkError => []
  | FetchOutcome.ok data => parse_mentions_response data

/-- A media list item from `legacy.extended_entities.media` (bot.py
lines 392-396). -/
structure MediaItem where
  media_url_https : Option String := none
  url : Option String := none
  deriving DecidableEq, Repr

/-- `result.get('extended_entities', {})` (bot.py line 392). -/
structure ExtendedEntities where
  media : List MediaItem := []
  deriving DecidableEq, Repr

/-- `result.get('legacy', {})` of a tweet result (bot.py line 385). -/
structure TweetLegacy where
  id_str : Option String := none
  full_text : Option String := none
  extended_entities : ExtendedEntities := {}
  deriving DecidableEq, Repr

/-- `user_results.get('legacy', {})` of the nested user substructure
(bot.py line 388). -/
structure UserLegacy where
  screen_name : Option String := none
  name : Option String := none
  deriving DecidableEq, Repr

/-- `core.get('user_results', {}).get('result', {})` (bot.py line 387);
a missing dict at any level behaves as the all-default value. -/
structure UserResultNode where
  legacy : UserLegacy := {}
  deriving DecidableEq, Repr

/-- `core.get('user_results', {})` (bot.py line 387). -/
structure UserResults where
  result : UserResultNode := {}
  deriving DecidableEq, Repr

/-- `result.get('core', {})` (bot.py line 386). -/
structure TweetCore where
  user_results : UserResults := {}
  deriving DecidableEq, Repr

/-- A tweet-result object as consumed by `_extract_tweet_from_result`
(bot.py lines 382-407). -/
structure TweetResultNode where
  legacy : TweetLegacy := {}
  core : TweetCore := {}
  deriving DecidableEq, Repr

/-- The media-URL loop of `_extract_tweet_from_result` (bot.py lines
391-396): `url = m.get('media_url_https') or m.get('url'); if url:
media_urls.append(url)`. -/
def extract_media (items : List MediaItem) : List String :=
  items.filterMap (fun m =>
    match pyOrStr m.media_url_https m.url with
    | some u => if u.isEmpty then none else some u
    | none => none)

/-- `ResolvedTweet`: the dict returned by `_extract_tweet_from_result`
(bot.py lines 398-404). -/
structure ResolvedTweet where
  id : String
  text : String
  author_handle : String
  author_name : String
  media_urls : List String
  deriving DecidableEq, Repr

/-- `TidyFeedBot._extract_tweet_from_result` (bot.py lines 382-407).
With well-typed substructures the `except` branch is unreachable, so
the function is total here. -/
def extract_tweet_from_result (r : TweetResultNode) : ResolvedTweet :=
  { id := r.legacy.id_str.getD "",
    text := r.legacy.full_text.getD "",
    author_handle := r.core.user_results.result.legacy.screen_name.getD "",
    author_name := r.core.user_results.result.legacy.name.getD "",
    media_urls := extract_media r.legacy.extended_entities.media }

/-- `content.itemContent.tweet_results` of an entry; `none` for the
`result` models a missing or empty (falsy) result dict, on which
`if result:` fails (bot.py lines 358-363). -/
structure TweetResults where
  result : Option TweetResultNode := none
  deriving DecidableEq, Repr

/-- `content.get('itemContent', {})` (bot.py line 359). -/
structure ItemContent where
  tweet_results : TweetResults := {}
  deriving DecidableEq, Repr

/-- `entry.get('content', {})` (bot.py line 358). -/
structure EntryContent where
  itemContent : ItemContent := {}
  deriving DecidableEq, Repr

/-- One timeline entry (bot.py lines 353-364). -/
structure Entry where
  entryId : String := ""
  content : EntryContent := {}
  deriving DecidableEq, Repr

/-- One instruction of the threaded-conversation payload (bot.py lines
348-350). -/
structure Instruction where
  type : String := ""
  entries : List Entry := []
  deriving DecidableEq, Repr

/-- `data.get('data', {}).get('threaded_conversation_with_injections_v2', {})`
(bot.py line 345); a missing level yields the default with an empty
instruction list. -/
structure ThreadedConversation where
  instructions : List Instruction := []
  deriving DecidableEq, Repr

/-- The whole TweetDetail GraphQL payload. -/
structure TweetDetailData where
  threaded_conversation_with_injections_v2 : ThreadedConversation := {}
  deriving DecidableEq, Repr

/-- `entry['content']['itemContent']['tweet_results']['result']` chain. -/
def entryResult (e : Entry) : Option TweetResultNode :=
  e.content.itemContent.tweet_results.result

/-- The matching loop over entries (bot.py lines 353-364): the first
entry whose `entryId` contains the substring `tweet-<target_id>` and
whose result dict is non-empty wins; a matching entry with an empty
result is passed over. -/
def scanEntries (target_id : String) : List Entry → Option TweetResultNode
  | [] => none
  | e :: rest =>
    if strHasSubstr e.entryId ("tweet-" ++ target_id) then
      match entryResult e with
      | some r => some r
      | none => scanEntries target_id rest
    else scanEntries target_id rest

/-- The instruction loop (bot.py lines 348-376): only the first
instruction of type `TimelineAddEntries` is processed (the loop body
ends in `break`). -/
def firstAddEntries : List Instruction → Option (List Entry)
  | [] => none
  | i :: rest =>
    if i.type = "TimelineAddEntries" then some i.entries else firstAddEntries rest

/-- `TidyFeedBot._parse_tweet_detail` (bot.py lines 341-380): look for
the entry embedding the target id; otherwise fall back to the first
entry's tweet-result; otherwise return `None`. -/
def parse_tweet_detail (data : TweetDetailData) (target_id : String) :
    Option ResolvedTweet :=
  match firstAddEntries data.threaded_conversation_with_injections_v2.instructions with
  | none => none
  | some entries =>
    match scanEntries target_id entries with
    | some r => some (extract_tweet_from_result r)
    | none =>
      match entries with
      | [] => none
      | e :: _ => (entryResult e).map extract_tweet_from_result

/-- A JSON value of the dispatch payload: string, null, or a string
array (the media URL list). -/
inductive JVal where
  | s (v : String)
  | null
  | arr (vs : List String)
  deriving DecidableEq, Repr

/-- A Python optional string as a JSON value (`None` serializes to null). -/
def optJ : Option String → JVal
  | none => JVal.null
  | some v => JVal.s v

/-- The observable parts of the outbound HTTP POST: its headers and its
JSON payload as an ordered key-value list. -/
structure HttpRequest where
  headers : List (String × String) := []
  payload : List (String × JVal) := []
  deriving DecidableEq, Repr

/-- `call_bot_save` of bot.py (lines 63-92): payload with handle, target
URL, mention id, optional target text, media URL list (`media_urls or
[]`), target author handle and name; `X-Service-Key` header carries the
shared secret. -/
def call_bot_save_request (service_key handle tweet_url : String)
    (mention_id tweet_text : Option String) (media_urls : Option (List String))
    (author_handle author_name : Option String) : HttpRequest :=
  { headers := [("Content-Type", "application/json"), ("X-Service-Key", service_key)],
    payload := [("handle", JVal.s handle),
      ("tweet_url", JVal.s tweet_url),
      ("mention_id", optJ mention_id),
      ("tweet_text", optJ tweet_text),
      ("media_urls", JVal.arr (media_urls.getD [])),
      ("author_handle", optJ author_handle),
      ("author_name", optJ author_name)] }

/-- `call_bot_save` of bot_direct.py (lines 99-110): payload with only
handle, target URL and tweet text; same `X-Service-Key` header. -/
def call_bot_save_direct_request (service_key handle tweet_url : String)
    (tweet_text : Option String) : HttpRequest :=
  { headers := [("Content-Type", "application/json"), ("X-Service-Key", service_key)],
    payload := [("handle", JVal.s handle),
      ("tweet_url", JVal.s tweet_url),
      ("tweet_text", optJ tweet_text)] }

/-- Python `l[-n:]` for `n > 0`: the last `n` elements. -/
def takeLast (n : Nat) (l : List String) : List String :=
  l.drop (l.length - n)

/-- `StateManager.save` (bot_direct.py lines 79-86): `ids_list =
list(self.processed_ids)[-MAX_STORED_IDS:]`. The argument is an
enumeration of the in-memory id set; Python guarantees nothing about
the enumeration order of a `set`, so theorems below quantify over every
enumeration and use only order-independent consequences. -/
def stateManagerSave (ids_list : List String) : List String :=
  takeLast MAX_STORED_IDS ids_list

/-- `save_state` (bot_poller.py lines 73-83): `if
len(state.get('processed_ids', [])) > 1000: state['processed_ids'] =
state['processed_ids'][-500:]`. Here the stored value is a genuine
list in append order, so `[-500:]` is the 500 most recently appended. -/
def save_state (processed_ids : List String) : List String :=
  if 1000 < processed_ids.length then takeLast 500 processed_ids else processed_ids

/-- `StateManager.is_processed` (bot_direct.py lines 88-89). -/
def is_processed (s : List String) (id : String) : Bool :=
  s.contains id

/-- `StateManager.mark_processed` (bot_direct.py lines 91-92): set
insertion, modelled on a duplicate-free list. -/
def mark_processed (s : List String) (id : String) : List String :=
  if s.contains id then s else s ++ [id]

/-- The backend response dict; flags read via `.get`, absent keys falsy. -/
structure BackendResult where
  success : Bool := false
  user_found : Bool := false
  saved : Bool := false
  already_saved : Bool := false
  already_processed : Bool := false
  deriving DecidableEq, Repr

/-- The processing environment: the configured service key, the backend's
response to the dispatch made while processing a given mention id, and
the outcome of `_fetch_tweet` for a given target id. -/
structure Env where
  service_key : String
  backend : String → BackendResult
  fetchTweet : String → Option ResolvedTweet

/-- The observable side effects of processing one mention:
a backend dispatch (tagged with the mention id being processed),
a dedup-store `mark_processed` write, or a like of the mention. -/
inductive XAction where
  | dispatch (mention_id : String) (req : HttpRequest)
  | mark (id : String)
  | like (id : String)
  deriving DecidableEq, Repr

/-- `TidyFeedBot._process_mention` of bot.py (lines 231-306). There is
no dedup store in bot.py: non-actionable mentions are skipped without
marking, and every actionable mention is dispatched; on a successful
response, `already_processed` suppresses the like, otherwise
`user_found` decides whether a like is issued. Returns the `True`/`False`
result and the emitted actions. -/
def process_mention (env : Env) (m : MentionRecord) : Bool × List XAction :=
  if !contains_trigger m.text then (false, [])
  else if pyFalsy m.in_reply_to_status_id then (false, [])
  else
    let reply_to := m.in_reply_to_status_id.getD ""
    let req :=
      match env.fetchTweet reply_to with
      | some tt =>
          call_bot_save_request env.service_key m.user_handle
            ("https://x.com/" ++ tt.author_handle ++ "/status/" ++ reply_to)
            (some m.id) (some tt.text) (some tt.media_urls)
            (some tt.author_handle) (some tt.author_name)
      | none =>
          call_bot_save_request env.service_key m.user_handle
            ("https://x.com/i/status/" ++ reply_to)
            (some m.id) none (some []) none none
    let resp := env.backend m.id
    if resp.success then
      if resp.already_processed then (false, [XAction.dispatch m.id req])
      else if resp.user_found then
        (true, [XAction.dispatch m.id req, XAction.like m.id])
      else (false, [XAction.dispatch m.id req])
    else (false, [XAction.dispatch m.id req])

/-- `TidyFeedBot._process_tweet` of bot_direct.py (lines 278-315):
`is_processed` guard, trigger and reply checks (each marking the id),
dispatch via the direct `call_bot_save`, unconditional
`mark_processed`, and a like iff `success` and `user_found`. Returns
the result, the updated dedup state, and the emitted actions. -/
def process_tweet (env : Env) (s : List String) (t : MentionRecord) :
    Bool × List String × List XAction :=
  if is_processed s t.id then (false, s, [])
  else if !contains_trigger t.text then
    (false, mark_processed s t.id, [XAction.mark t.id])
  else if pyFalsy t.in_reply_to_status_id then
    (false, mark_processed s t.id, [XAction.mark t.id])
  else
    let reply_to := t.in_reply_to_status_id.getD ""
    let req := call_bot_save_direct_request env.service_key t.user_handle
      ("https://x.com/i/status/" ++ reply_to) (some t.text)
    let resp := env.backend t.id
    if resp.success && resp.user_found then
      (true, mark_processed s t.id,
        [XAction.dispatch t.id req, XAction.mark t.id, XAction.like t.id])
    else
      (false, mark_processed s t.id, [XAction.dispatch t.id req, XAction.mark t.id])

/-- The mention loop of bot.py `poll_once` (lines 218-221): sequential,
stateless processing of a batch. -/
def poll_once_py (env : Env) : List MentionRecord → Nat × List XAction
  | [] => (0, [])
  | m :: rest =>
    let r := process_mention env m
    let rs := poll_once_py env rest
    ((if r.1 then 1 else 0) + rs.1, r.2 ++ rs.2)

/-- The tweet loop of bot_direct.py `poll_once` (lines 266-269):
sequential processing threading the dedup state. -/
def process_cycle_direct (env : Env) (s : List String) :
    List MentionRecord → List String × List XAction
  | [] => (s, [])
  | t :: rest =>
    let r := process_tweet env s t
    let rs := process_cycle_direct env r.2.1 rest
    (rs.1, r.2.2 ++ rs.2)

/-- bot_direct.py `poll_once` (lines 252-276): an empty batch returns
before the loop and before `self.state.save()`; otherwise the batch is
processed and the state saved once. -/
def poll_once_direct (env : Env) (s : List String) (batch : List MentionRecord) :
    List String × List XAction :=
  match batch with
  | [] => (s, [])
  | _ =>
    let r := process_cycle_direct env s batch
    (stateManagerSave r.1, r.2)

/-- A run of bot_direct.py poll cycles, each given the batch its search
returned; the dedup state persists across cycles (and across restarts,
via the saved file). -/
def run_direct (env : Env) (s : List String) :
    List (List MentionRecord) → List String × List XAction
  | [] => (s, [])
  | c :: cs =>
    let r := poll_once_direct env s c
    let rs := run_direct env r.1 cs
    (rs.1, r.2 ++ rs.2)

/-- A run never fills the dedup store past its capacity: before every
`StateManager.save` the state holds at most `MAX_STORED_IDS` ids, so no
save ever truncates (evicts). -/
def noEviction (env : Env) (s : List String) : List (List MentionRecord) → Bool
  | [] => true
  | c :: cs =>
    decide ((process_cycle_direct env s c).1.length ≤ MAX_STORED_IDS) &&
      noEviction env (poll_once_direct env s c).1 cs

/-- Is this action a backend dispatch for mention `m`? -/
def isDispatchFor (m : String) : XAction → Bool
  | XAction.dispatch mid _ => mid == m
  | _ => false

/-- Number of backend dispatch calls made for mention id `m`. -/
def dispatchesFor (m : String) (acts : List XAction) : Nat :=
  acts.countP (isDispatchFor m)

/-- Is this action a backend dispatch at all? -/
def isDispatchAct : XAction → Bool
  | XAction.dispatch _ _ => true
  | _ => false

/-- Does the action list contain any backend dispatch? -/
def hasDispatch (acts : List XAction) : Bool :=
  acts.any isDispatchAct

/-- `random.randint(a, b)` (inclusive bounds), made explicit in the
random source `r`: the value `a + r % (b - a + 1)`, which ranges over
exactly `[a, b]` as `r` ranges over the naturals. -/
def randint (a b r : Nat) : Nat :=
  a + r % (b - a + 1)

/-- Outcome of one loop cycle body: a completed poll, or an unexpected
exception reaching the `while True` boundary. -/
inductive CycleOutcome where
  | ok (processed : Nat)
  | err
  deriving Repr

/-- The sleep performed at the end of a loop cycle (bot.py lines
452-472, bot_direct.py lines 344-359): a jittered
`random.randint(POLL_MIN_SECONDS, POLL_MAX_SECONDS)` after a normal
cycle, and a fixed `await asyncio.sleep(60)` in the `except Exception`
branch; the loop then continues polling. -/
def loop_sleep_seconds (minS maxS : Nat) (o : CycleOutcome) (r : Nat) : Nat :=
  match o with
  | CycleOutcome.ok _ => randint minS maxS r
  | CycleOutcome.err => 60

/-- Every attribute ever assigned on `self` in bot.py's `TidyFeedBot`:
`self.client` (lines 142, 149) and `self._authenticated` (lines 143,
160). No method of the class and no caller assigns `state`. -/
def botPyAssignedAttrs : List String := ["client", "_authenticated"]

/-- Python attribute access `bot.<attr>`: succeeds only for an assigned
attribute, otherwise raises `AttributeError`. -/
def getattrBotPy (attr : String) : Except String Unit :=
  if botPyAssignedAttrs.contains attr then Except.ok ()
  else Except.error ("AttributeError: " ++ attr)

/-- The `KeyboardInterrupt` shutdown branch of bot.py `run_bot` (lines
463-466) evaluates `bot.state.save()`, which first accesses
`bot.state`. -/
def run_bot_shutdown_save : Except String Unit :=
  getattrBotPy "state"

theorem contains_true_iff (s : List String) (x : String) :
    s.contains x = true ↔ x ∈ s :=
  List.elem_iff

theorem mem_mark_processed (s : List String) (id x : String) (h : x ∈ s) :
    x ∈ mark_processed s id := by
  unfold mark_processed
  split
  · exact h
  · exact List.mem_append_left _ h

theorem self_mem_mark_processed (s : List String) (id : String) :
    id ∈ mark_processed s id := by
  unfold mark_processed
  split
  · next h => exact (contains_true_iff s id).mp h
  · exact List.mem_append_right _ (List.mem_singleton.mpr rfl)

theorem process_tweet_state_mono (env : Env) (s : List String) (t : MentionRecord)
    (x : String) (h : x ∈ s) : x ∈ (process_tweet env s t).2.1 := by
  simp only [process_tweet]
  split_ifs <;> first
    | exact h
    | exact mem_mark_processed s t.id x h

theorem process_tweet_id_mem (env : Env) (s : List String) (t : MentionRecord) :
    t.id ∈ (process_tweet env s t).2.1 := by
  simp only [process_tweet]
  split_ifs with h1 <;> first
    | exact (contains_true_iff s t.id).mp h1
    | exact self_mem_mark_processed s t.id

theorem process_tweet_dispatch_ne (env : Env) (s : List String) (t : MentionRecord)
    (m : String) (h : t.id ≠ m) :
    dispatchesFor m (process_tweet env s t).2.2 = 0 := by
  simp only [process_tweet]
  split_ifs <;> simp_all [dispatchesFor, isDispatchFor]

theorem process_tweet_dispatch_of_mem (env : Env) (s : List String)
    (t : MentionRecord) (m : String) (h : m ∈ s) :
    dispatchesFor m (process_tweet env s t).2.2 = 0 := by
  by_cases he : t.id = m
  · unfold process_tweet
    rw [if_pos]
    · simp [dispatchesFor]
    · subst he
      exact (contains_true_iff s t.id).mpr h
  · exact process_tweet_dispatch_ne env s t m he

theorem process_tweet_dispatch_le_one (env : Env) (s : List String)
    (t : MentionRecord) (m : String) :
    dispatchesFor m (process_tweet env s t).2.2 ≤ 1 := by
  by_cases h : t.id = m
  · subst h
    simp only [process_tweet]
    split_ifs <;> simp [dispatchesFor, isDispatchFor]
  · rw [process_tweet_dispatch_ne env s t m h]
    omega

theorem process_tweet_dispatch_mem (env : Env) (s : List String)
    (t : MentionRecord) (m : String)
    (h : dispatchesFor m (process_tweet env s t).2.2 ≠ 0) :
    m ∈ (process_tweet env s t).2.1 := by
  by_cases he : t.id = m
  · subst he
    exact process_tweet_id_mem env s t
  · exact absurd (process_tweet_dispatch_ne env s t m he) h

theorem cycle_state_mono (env : Env) (ts : List MentionRecord) (s : List String)
    (x : String) (h : x ∈ s) : x ∈ (process_cycle_direct env s ts).1 := by
  induction ts generalizing s with
  | nil => exact h
  | cons t rest ih =>
    exact ih (process_tweet env s t).2.1 (process_tweet_state_mono env s t x h)

theorem cycle_dispatch_zero_of_mem (env : Env) (ts : List MentionRecord)
    (s : List String) (m : String) (h : m ∈ s) :
    dispatchesFor m (process_cycle_direct env s ts).2 = 0 := by
  induction ts generalizing s with
  | nil => rfl
  | cons t rest ih =>
    show dispatchesFor m ((process_tweet env s t).2.2 ++ _) = 0
    rw [dispatchesFor, List.countP_append]
    have h1 := process_tweet_dispatch_of_mem env s t m h
    have h2 := ih (process_tweet env s t).2.1 (process_tweet_state_mono env s t m h)
    rw [dispatchesFor] at h1 h2
    omega

theorem cycle_dispatch_le_one (env : Env) (ts : List MentionRecord)
    (s : List String) (m : String) :
    dispatchesFor m (process_cycle_direct env s ts).2 ≤ 1 ∧
      (dispatchesFor m (process_cycle_direct env s ts).2 ≠ 0 →
        m ∈ (process_cycle_direct env s ts).1) := by
  induction ts generalizing s with
  | nil => exact ⟨by simp [dispatchesFor, process_cycle_direct], by simp [dispatchesFor, process_cycle_direct]⟩
  | cons t rest ih =>
    have hsplit : dispatchesFor m (process_cycle_direct env s (t :: rest)).2 =
        dispatchesFor m (process_tweet env s t).2.2 +
          dispatchesFor m (process_cycle_direct env (process_tweet env s t).2.1 rest).2 := by
      show dispatchesFor m ((process_tweet env s t).2.2 ++ _) = _
      rw [dispatchesFor, List.countP_append]; rfl
    have hstate : (process_cycle_direct env s (t :: rest)).1 =
        (process_cycle_direct env (process_tweet env s t).2.1 rest).1 := rfl
    by_cases hc1 : dispatchesFor m (process_tweet env s t).2.2 = 0
    · have := ih (process_tweet env s t).2.1
      constructor
      · rw [hsplit, hc1]; omega
      · intro hne
        rw [hsplit, hc1] at hne
        rw [hstate]
        exact this.2 (by omega)
    · have hmem : m ∈ (process_tweet env s t).2.1 :=
        process_tweet_dispatch_mem env s t m hc1
      have hz := cycle_dispatch_zero_of_mem env rest (process_tweet env s t).2.1 m hmem
      constructor
      · rw [hsplit, hz]
        have := process_tweet_dispatch_le_one env s t m
        omega
      · intro _
        rw [hstate]
        exact cycle_state_mono env rest (process_tweet env s t).2.1 m hmem

theorem takeLast_of_le (n : Nat) (l : List String) (h : l.length ≤ n) :
    takeLast n l = l := by
  unfold takeLast
  rw [Nat.sub_eq_zero_of_le h, List.drop_zero]

theorem run_direct_dispatch (env : Env) (cs : List (List MentionRecord))
    (s : List String) (m : String) (h : noEviction env s cs = true) :
    dispatchesFor m (run_direct env s cs).2 ≤ 1 ∧
      (dispatchesFor m (run_direct env s cs).2 ≠ 0 → m ∈ (run_direct env s cs).1) ∧
      (m ∈ s → dispatchesFor m (run_direct env s cs).2 = 0 ∧ m ∈ (run_direct env s cs).1) := by
  induction cs generalizing s with
  | nil => simp [run_direct, dispatchesFor]
  | cons c cs ih =>
    rw [noEviction, Bool.and_eq_true] at h
    obtain ⟨h1, h2⟩ := h
    have hlen : (process_cycle_direct env s c).1.length ≤ MAX_STORED_IDS :=
      of_decide_eq_true h1
    have hsave : (poll_once_direct env s c).1 = (process_cycle_direct env s c).1 := by
      cases c with
      | nil => rfl
      | cons t ts =>
        show stateManagerSave (process_cycle_direct env s (t :: ts)).1 = _
        rw [stateManagerSave]
        exact takeLast_of_le MAX_STORED_IDS (process_cycle_direct env s (t :: ts)).1 hlen
    have hact : (poll_once_direct env s c).2 = (process_cycle_direct env s c).2 := by
      cases c <;> rfl
    have hrun1 : (run_direct env s (c :: cs)).1 =
        (run_direct env (poll_once_direct env s c).1 cs).1 := rfl
    have hcount : dispatchesFor m (run_direct env s (c :: cs)).2 =
        dispatchesFor m (process_cycle_direct env s c).2 +
          dispatchesFor m (run_direct env (poll_once_direct env s c).1 cs).2 := by
      show dispatchesFor m ((poll_once_direct env s c).2 ++ _) = _
      rw [hact, dispatchesFor, List.countP_append]
      rfl
    have hc := cycle_dispatch_le_one env c s m
    have ihh := ih (poll_once_direct env s c).1 h2
    refine ⟨?_, ?_, ?_⟩
    · rw [hcount]
      by_cases hc1 : dispatchesFor m (process_cycle_direct env s c).2 = 0
      · rw [hc1]
        omega
      · have hmem : m ∈ (poll_once_direct env s c).1 := by
          rw [hsave]
          exact hc.2 hc1
        have := (ihh.2.2 hmem).1
        omega
    · intro hne
      rw [hcount] at hne
      rw [hrun1]
      by_cases hc1 : dispatchesFor m (process_cycle_direct env s c).2 = 0
      · rw [hc1] at hne
        exact ihh.2.1 (by omega)
      · have hmem : m ∈ (poll_once_direct env s c).1 := by
          rw [hsave]
          exact hc.2 hc1
        exact (ihh.2.2 hmem).2
    · intro hms
      have hz : dispatchesFor m (process_cycle_direct env s c).2 = 0 :=
        cycle_dispatch_zero_of_mem env c s m hms
      have hmem : m ∈ (poll_once_direct env s c).1 := by
        rw [hsave]
        exact cycle_state_mono env c s m hms
      refine ⟨?_, ?_⟩
      · rw [hcount, hz, (ihh.2.2 hmem).1]
      · rw [hrun1]
        exact (ihh.2.2 hmem).2

/-- A concrete environment for witnesses and counterexamples: the
backend reports a successful save for a linked user, and tweet
resolution fails (URL-only fallback). -/
def envW : Env :=
  { service_key := "k",
    backend := fun _ => { success := true, user_found := true, saved := true },
    fetchTweet := fun _ => none }

/-- A concrete actionable mention: trigger word present, reply target
present. -/
def mSave : MentionRecord :=
  { id := "m1", text := "save pls", user_handle := "alice",
    in_reply_to_status_id := some "t1" }

/-- Claim C1, counterexample. bot.py's `_process_mention` (its own
source for the claim) has no `is_processed` check and no dedup store:
processing the same actionable mention id in two successive poll
cycles makes two backend dispatch calls for that id, not at most one. -/
theorem c1_botpy_double_dispatch_cx :
    dispatchesFor "m1"
      ((poll_once_py envW [mSave]).2 ++ (poll_once_py envW [mSave]).2) = 2 := by
  decide

/-- Claim C1 (amended): in bot_direct.py, for every mention id, every
starting dedup state and every sequence of poll cycles during which the
persisted store never overflows its capacity (so `save` never evicts),
at most one backend dispatch is made for that id: the `is_processed`
check suppresses any second dispatch. In bot.py there is no local
dedup and every encounter re-dispatches (see the counterexample). -/
theorem c1_direct_at_most_one_dispatch (env : Env) (s : List String)
    (cycles : List (List MentionRecord)) (m : String)
    (h : noEviction env s cycles = true) :
    dispatchesFor m (run_direct env s cycles).2 ≤ 1 :=
  (run_direct_dispatch env cycles s m h).1

/-- Witness for C1 (amended): a concrete two-cycle run in which the
same mention appears in both cycles dispatches at most once. -/
theorem c1_direct_at_most_one_dispatch_witness :
    noEviction envW [] [[mSave], [mSave]] = true ∧
      dispatchesFor "m1" (run_direct envW [] [[mSave], [mSave]]).2 ≤ 1 :=
  ⟨by decide, c1_direct_at_most_one_dispatch envW [] [[mSave], [mSave]] "m1" (by decide)⟩

/-- A concrete mention whose text has no trigger word. -/
def mNoTrig : MentionRecord :=
  { id := "m0", text := "nice post", user_handle := "bob",
    in_reply_to_status_id := some "t9" }

/-- Claim C2, counterexample. In bot.py (a cited source of the claim),
a mention without a trigger word is skipped without any dedup-store
write: the emitted action trace is empty, so no `mark_processed` ever
happens for it (bot.py has no dedup store at all), contradicting "the
mention's id is still marked processed in the dedup store". -/
theorem c2_botpy_not_marked_cx :
    (process_mention envW mNoTrig).2 = [] ∧
      XAction.mark "m0" ∉ (process_mention envW mNoTrig).2 := by
  exact ⟨by decide, by decide⟩

/-- Claim C2 (amended): in bot_direct.py, a non-actionable mention (no
trigger word, or absent/empty reply target) causes no backend dispatch
and its id ends up in the dedup store; in bot.py such a mention causes
no backend dispatch but nothing is marked (bot.py keeps no dedup
state and emits no actions at all for it). -/
theorem c2_nonactionable_amended :
    (∀ (env : Env) (s : List String) (t : MentionRecord),
        contains_trigger t.text = false ∨ pyFalsy t.in_reply_to_status_id = true →
          hasDispatch (process_tweet env s t).2.2 = false ∧
            t.id ∈ (process_tweet env s t).2.1) ∧
      (∀ (env : Env) (m : MentionRecord),
        contains_trigger m.text = false ∨ pyFalsy m.in_reply_to_status_id = true →
          (process_mention env m).2 = []) := by
  constructor
  · intro env s t h
    refine ⟨?_, process_tweet_id_mem env s t⟩
    simp only [process_tweet]
    split_ifs <;> first
      | rfl
      | (rcases h with h | h <;> simp_all)
  · intro env m h
    simp only [process_mention]
    split_ifs <;> first
      | rfl
      | (rcases h with h | h <;> simp_all)

/-- Witness for C2 (amended): both parts applied to a concrete mention
with no trigger word. -/
theorem c2_nonactionable_amended_witness :
    (hasDispatch (process_tweet envW [] mNoTrig).2.2 = false ∧
        "m0" ∈ (process_tweet envW [] mNoTrig).2.1) ∧
      (process_mention envW mNoTrig).2 = [] :=
  ⟨c2_nonactionable_amended.1 envW [] mNoTrig (Or.inl (by decide)),
    c2_nonactionable_amended.2 envW mNoTrig (Or.inl (by decide))⟩

/-- A concrete environment whose backend answers with a successful,
user-found and `already_processed` response. -/
def envAP : Env :=
  { service_key := "k",
    backend := fun _ =>
      { success := true, user_found := true, already_processed := true },
    fetchTweet := fun _ => none }

/-- Claim C7, counterexample. bot_direct.py's `_process_tweet` (a cited
source of the claim) never consults `already_processed`: when the
backend response carries `success`, `user_found` and
`already_processed` all true, a like IS issued for the mention. -/
theorem c7_direct_likes_already_processed_cx :
    (envAP.backend "m1").already_processed = true ∧
      (envAP.backend "m1").success = true ∧
      XAction.like "m1" ∈ (process_tweet envAP [] mSave).2.2 := by
  exact ⟨rfl, rfl, by decide⟩

/-- Claim C7 (amended): in bot.py, a successful backend response with
`already_processed` true suppresses the like (but bot.py has no local
dedup store, so nothing is "marked processed locally"); in
bot_direct.py the mention id always ends up in the local dedup store
after processing, but `already_processed` is not consulted and a like
is issued whenever the response has `success` and `user_found` true
(see the counterexample). -/
theorem c7_already_processed_amended :
    (∀ (env : Env) (m : MentionRecord),
        (env.backend m.id).success = true →
          (env.backend m.id).already_processed = true →
            XAction.like m.id ∉ (process_mention env m).2) ∧
      (∀ (env : Env) (s : List String) (t : MentionRecord),
        t.id ∈ (process_tweet env s t).2.1) := by
  constructor
  · intro env m hs hap
    simp only [process_mention]
    split_ifs <;> simp_all
  · intro env s t
    exact process_tweet_id_mem env s t

/-- Witness for C7 (amended): both parts at a concrete
`already_processed` response. -/
theorem c7_already_processed_amended_witness :
    XAction.like "m1" ∉ (process_mention envAP mSave).2 ∧
      "m1" ∈ (process_tweet envAP [] mSave).2.1 :=
  ⟨c7_already_processed_amended.1 envAP mSave (by decide) (by decide),
    c7_already_processed_amended.2 envAP [] mSave⟩

theorem takeLast_length (n : Nat) (l : List String) :
    (takeLast n l).length = l.length - (l.length - n) := by
  simp [takeLast]

/-- 1001 distinct mention ids in insertion order. -/
def ids1001 : List String := (List.range 1001).map (fun n => Nat.repr n)

theorem ids1001_length : ids1001.length = 1001 := by
  simp [ids1001]

/-- Claim C3, counterexample. bot_poller.py's `save_state` (a cited
source of the claim) keeps only the last 500 ids once more than 1000
have been inserted: after persisting 1001 distinct ids the stored set
has 500 elements, not the 1000 most recently inserted. -/
theorem c3_save_truncates_to_500_cx :
    (save_state ids1001).length = 500 ∧
      save_state ids1001 ≠ takeLast MAX_STORED_IDS ids1001 := by
  have h1 : save_state ids1001 = takeLast 500 ids1001 := by
    rw [save_state, if_pos]
    rw [ids1001_length]
    omega
  have h2 : (takeLast 500 ids1001).length = 500 := by
    rw [takeLast_length, ids1001_length]
  have h3 : (takeLast MAX_STORED_IDS ids1001).length = 1000 := by
    rw [takeLast_length, ids1001_length, MAX_STORED_IDS]
  constructor
  · rw [h1, h2]
  · intro he
    rw [h1] at he
    have := congrArg List.length he
    rw [h2, h3] at this
    omega

/-- Claim C3 (amended): after every persist the stored set has size at
most 1000 — this holds both for bot_poller.py's `save_state` and for
bot_direct.py's `StateManager.save` (the latter for every enumeration
order of the id set, over which nothing more can be guaranteed since
Python sets are unordered). But when more than 1000 ids have been
inserted, `save_state` retains exactly the 500 most recently inserted,
not the 1000 most recent. -/
theorem c3_capacity_amended :
    (∀ l : List String, (save_state l).length ≤ 1000) ∧
      (∀ l : List String, 1000 < l.length → save_state l = takeLast 500 l) ∧
      (∀ l : List String, (stateManagerSave l).length ≤ 1000) := by
  refine ⟨?_, ?_, ?_⟩
  · intro l
    rw [save_state]
    split_ifs with h
    · rw [takeLast_length]
      omega
    · omega
  · intro l h
    rw [save_state, if_pos h]
  · intro l
    rw [stateManagerSave, takeLast_length, MAX_STORED_IDS]
    omega

/-- Witness for C3 (amended): the truncation branch applied to the
concrete 1001-id list. -/
theorem c3_capacity_amended_witness :
    1000 < ids1001.length ∧ save_state ids1001 = takeLast 500 ids1001 :=
  ⟨by rw [ids1001_length]; omega,
    c3_capacity_amended.2.1 ids1001 (by rw [ids1001_length]; omega)⟩

/-- A concrete user table and three-tweet batch whose middle entry is
malformed. -/
def usersDemo : List (String × UserObj) :=
  [("u1", { screen_name := some "alice", name := some "Alice" }),
    ("u3", { screen_name := some "carol", name := some "Carol" })]

/-- First (well-formed) tweet of the demo batch. -/
def tweetA : TweetObj :=
  { full_text := some "@tidyfeedapp save", user_id_str := some "u1",
    in_reply_to_status_id_str := some "t1" }

/-- Third (well-formed) tweet of the demo batch, after the malformed one. -/
def tweetC : TweetObj :=
  { full_text := some "@tidyfeedapp keep", user_id_str := some "u3",
    in_reply_to_status_id_str := some "t3" }

/-- The demo mentions payload: entries "1" (good), "2" (malformed),
"3" (good), in iteration order. -/
def batchDemo : MentionsResponse :=
  { globalObjects := some
      { tweets := [("1", RawTweet.obj tweetA), ("2", RawTweet.malformed),
          ("3", RawTweet.obj tweetC)],
        users := usersDemo } }

/-- Claim C5, counterexample. One malformed entry in the middle of a
batch aborts the rest of the batch: the third (well-formed) entry is
not normalized — the parse returns only the record produced before the
malformed entry, because the whole loop sits in a single try/except. -/
theorem c5_malformed_entry_aborts_batch_cx :
    parse_mentions_response batchDemo = [normalize_mention usersDemo "1" tweetA] ∧
      ∀ m ∈ parse_mentions_response batchDemo, m.id ≠ "3" := by
  exact ⟨by decide, by decide⟩

/-- Claim C5 (amended): `poll` never raises and any internal failure
(network error, missing top-level `globalObjects`) yields an empty
sequence; but a malformed individual tweet entry is not merely
skipped: the entries normalized before it are returned and every entry
after it is dropped. -/
theorem c5_poll_error_handling_amended :
    fetch_mentions_raw FetchOutcome.networkError = [] ∧
      parse_mentions_response { globalObjects := none } = [] ∧
      (∀ (users : List (String × UserObj)) (pre : List (String × TweetObj))
          (badId : String) (post : List (String × RawTweet)),
        parse_mentions_loop users
            (pre.map (fun p => (p.1, RawTweet.obj p.2)) ++
              (badId, RawTweet.malformed) :: post) =
          pre.map (fun p => normalize_mention users p.1 p.2)) := by
  refine ⟨rfl, rfl, ?_⟩
  intro users pre badId post
  induction pre with
  | nil => rfl
  | cons p rest ih =>
    simp only [List.map_cons, List.cons_append, parse_mentions_loop, List.append_eq]
    rw [ih]

/-- The concrete dispatch request bot_direct.py's `_process_tweet`
builds for `mSave` under `envW`. -/
def reqDirectDemo : HttpRequest :=
  call_bot_save_direct_request "k" "alice" "https://x.com/i/status/t1" (some "save pls")

/-- Claim C6, counterexample. The dispatch actually emitted by
bot_direct.py's `_process_tweet` (a cited source of the claim) carries
no `mention_id`, no `media_urls` and no `author_handle`/`author_name`
keys at all, so not every backend dispatch request carries the mention
id as idempotency key, the media URL list or the target author. -/
theorem c6_direct_request_lacks_mention_id_cx :
    XAction.dispatch "m1" reqDirectDemo ∈ (process_tweet envW [] mSave).2.2 ∧
      List.lookup "mention_id" reqDirectDemo.payload = none ∧
      List.lookup "media_urls" reqDirectDemo.payload = none ∧
      List.lookup "author_handle" reqDirectDemo.payload = none := by
  exact ⟨by decide, rfl, rfl, rfl⟩

/-- Claim C6 (amended): the requests built by bot.py's `call_bot_save`
carry the sender handle, target URL, the mention id as idempotency
key, the optional target text, the media URL list, the target author
handle and name, and the shared-secret `X-Service-Key` header; the
requests built by bot_direct.py's `call_bot_save` carry only the
handle, target URL and tweet text (plus the same header). -/
theorem c6_request_fields_amended :
    (∀ (sk h u : String) (mid txt : Option String) (mu : Option (List String))
        (ah an : Option String),
      List.lookup "handle" (call_bot_save_request sk h u mid txt mu ah an).payload =
          some (JVal.s h) ∧
        List.lookup "tweet_url" (call_bot_save_request sk h u mid txt mu ah an).payload =
          some (JVal.s u) ∧
        List.lookup "mention_id" (call_bot_save_request sk h u mid txt mu ah an).payload =
          some (optJ mid) ∧
        List.lookup "tweet_text" (call_bot_save_request sk h u mid txt mu ah an).payload =
          some (optJ txt) ∧
        List.lookup "media_urls" (call_bot_save_request sk h u mid txt mu ah an).payload =
          some (JVal.arr (mu.getD [])) ∧
        List.lookup "author_handle" (call_bot_save_request sk h u mid txt mu ah an).payload =
          some (optJ ah) ∧
        List.lookup "author_name" (call_bot_save_request sk h u mid txt mu ah an).payload =
          some (optJ an) ∧
        List.lookup "X-Service-Key" (call_bot_save_request sk h u mid txt mu ah an).headers =
          some sk) ∧
      (∀ (sk h u : String) (txt : Option String),
        (call_bot_save_direct_request sk h u txt).payload =
            [("handle", JVal.s h), ("tweet_url", JVal.s u), ("tweet_text", optJ txt)] ∧
          List.lookup "X-Service-Key" (call_bot_save_direct_request sk h u txt).headers =
            some sk) := by
  constructor
  · intro sk h u mid txt mu ah an
    exact ⟨rfl, rfl, rfl, rfl, rfl, rfl, rfl, rfl⟩
  · intro sk h u txt
    exact ⟨rfl, rfl⟩

/-- Claim C8 evidence. The jittered sleep after a normal cycle is
`randint(POLL_MIN_SECONDS, POLL_MAX_SECONDS)` and with the default
configuration ranges over exactly 45..90; but the sleep taken when an
unexpected exception reaches the loop boundary is a fixed 60 seconds —
inside the normal jitter range, not an extended backoff — while the
`ERROR_SLEEP_SECONDS = 300` constant both files define is never used. -/
theorem c8_error_sleep_not_extended :
    (∀ r : Nat, loop_sleep_seconds POLL_MIN_SECONDS_default POLL_MAX_SECONDS_default
        CycleOutcome.err r = 60) ∧
      60 ≤ POLL_MAX_SECONDS_default ∧
      ERROR_SLEEP_SECONDS = 300 ∧
      (∀ r : Nat,
        POLL_MIN_SECONDS_default ≤
            loop_sleep_seconds POLL_MIN_SECONDS_default POLL_MAX_SECONDS_default
              (CycleOutcome.ok 0) r ∧
          loop_sleep_seconds POLL_MIN_SECONDS_default POLL_MAX_SECONDS_default
              (CycleOutcome.ok 0) r ≤ POLL_MAX_SECONDS_default) ∧
      (∀ r : Nat,
        loop_sleep_seconds POLL_MIN_SECONDS_default POLL_MAX_SECONDS_default
            (CycleOutcome.ok 0) r = 45 + r % 46) := by
    refine ⟨fun _ => rfl, by decide, rfl, ?_, fun _ => rfl⟩
    intro r
    show POLL_MIN_SECONDS_default ≤ randint 45 90 r ∧ randint 45 90 r ≤ 90
    rw [randint]
    have : r % (90 - 45 + 1) < 46 := Nat.mod_lt r (by omega)
    constructor
    · rw [POLL_MIN_SECONDS_default]
      omega
    · omega

/-- Claim C9. bot.py's `TidyFeedBot` never assigns an attribute named
`state` (only `client` and `_authenticated`), so the
`KeyboardInterrupt` shutdown branch of `run_bot`, which evaluates
`bot.state.save()`, fails at the attribute access itself and cannot
complete a clean state save. -/
theorem c9_no_state_attribute :
    "state" ∉ botPyAssignedAttrs ∧
      run_bot_shutdown_save = Except.error "AttributeError: state" :=
  ⟨by decide, rfl⟩

theorem scanEntries_of_no_match (t : String) (es : List Entry)
    (h : ∀ e ∈ es, strHasSubstr e.entryId ("tweet-" ++ t) = false) :
    scanEntries t es = none := by
  induction es with
  | nil => rfl
  | cons e rest ih =>
    have hc := h e (List.mem_cons_self e rest)
    simp only [scanEntries, hc, Bool.false_eq_true, if_false]
    exact ih fun e' he' => h e' (List.mem_cons_of_mem e he')

theorem scanEntries_append_match (t : String) (pre post : List Entry) (e : Entry)
    (r : TweetResultNode)
    (hpre : ∀ e' ∈ pre, strHasSubstr e'.entryId ("tweet-" ++ t) = false)
    (he : strHasSubstr e.entryId ("tweet-" ++ t) = true)
    (hr : entryResult e = some r) :
    scanEntries t (pre ++ e :: post) = some r := by
  induction pre with
  | nil =>
    simp only [List.nil_append]
    simp [scanEntries, he, hr]
  | cons p rest ih =>
    have hp := hpre p (List.mem_cons_self p rest)
    simp only [List.cons_append, scanEntries, hp, Bool.false_eq_true, if_false]
    exact ih fun e' he' => hpre e' (List.mem_cons_of_mem p he')

/-- Claim C4: when the first add-entries instruction holds an entry
whose `entryId` embeds `tweet-<target_id>` (no earlier entry matching)
with a non-empty tweet-result whose `legacy.id_str` is the target id,
`resolve` returns a `ResolvedTweet` whose id is the target id and
whose author handle and name come from that result's nested user
substructure; and when no entry matches the target id, `resolve` falls
back to the first entry's tweet-result. -/
theorem c4_resolve_target_and_fallback :
    (∀ (d : TweetDetailData) (t : String) (pre post : List Entry) (e : Entry)
        (r : TweetResultNode),
      firstAddEntries d.threaded_conversation_with_injections_v2.instructions =
          some (pre ++ e :: post) →
        (∀ e' ∈ pre, strHasSubstr e'.entryId ("tweet-" ++ t) = false) →
        strHasSubstr e.entryId ("tweet-" ++ t) = true →
        entryResult e = some r →
        r.legacy.id_str = some t →
        parse_tweet_detail d t = some
          { id := t,
            text := r.legacy.full_text.getD "",
            author_handle := r.core.user_results.result.legacy.screen_name.getD "",
            author_name := r.core.user_results.result.legacy.name.getD "",
            media_urls := extract_media r.legacy.extended_entities.media }) ∧
      (∀ (d : TweetDetailData) (t : String) (e : Entry) (rest : List Entry)
          (r : TweetResultNode),
        firstAddEntries d.threaded_conversation_with_injections_v2.instructions =
            some (e :: rest) →
          (∀ e' ∈ e :: rest, strHasSubstr e'.entryId ("tweet-" ++ t) = false) →
          entryResult e = some r →
          parse_tweet_detail d t = some (extract_tweet_from_result r)) := by
  constructor
  · intro d t pre post e r hfirst hpre he hr hid
    have hscan := scanEntries_append_match t pre post e r hpre he hr
    simp only [parse_tweet_detail, hfirst, hscan]
    simp [extract_tweet_from_result, hid]
  · intro d t e rest r hfirst hnone hr
    have hscan := scanEntries_of_no_match t (e :: rest) hnone
    simp [parse_tweet_detail, hfirst, hscan, hr]

/-- The target tweet result used in the C4 witness: id "42" with a
nested user substructure. -/
def res42 : TweetResultNode :=
  { legacy := { id_str := some "42", full_text := some "hello" },
    core := { user_results := { result :=
      { legacy := { screen_name := some "alice", name := some "Alice" } } } } }

/-- The entry embedding `tweet-42`. -/
def entry42 : Entry :=
  { entryId := "tweet-42",
    content := { itemContent := { tweet_results := { result := some res42 } } } }

/-- A TweetDetail payload whose add-entries instruction holds the
`tweet-42` entry. -/
def detail42 : TweetDetailData :=
  { threaded_conversation_with_injections_v2 :=
      { instructions := [{ type := "TimelineAddEntries", entries := [entry42] }] } }

/-- A tweet result unrelated to the C4 fallback target id "7". -/
def res99 : TweetResultNode :=
  { legacy := { id_str := some "99", full_text := some "other" },
    core := { user_results := { result :=
      { legacy := { screen_name := some "bob", name := some "Bob" } } } } }

/-- An entry embedding `tweet-99` only. -/
def entry99 : Entry :=
  { entryId := "tweet-99",
    content := { itemContent := { tweet_results := { result := some res99 } } } }

/-- A TweetDetail payload with no entry matching target "7". -/
def detailFb : TweetDetailData :=
  { threaded_conversation_with_injections_v2 :=
      { instructions := [{ type := "TimelineAddEntries", entries := [entry99] }] } }

/-- Witness for C4: the exact-match branch on a payload embedding
tweet id "42", and the first-entry fallback for an unmatched target. -/
theorem c4_resolve_target_and_fallback_witness :
    parse_tweet_detail detail42 "42" = some
        { id := "42", text := "hello", author_handle := "alice",
          author_name := "Alice", media_urls := [] } ∧
      parse_tweet_detail detailFb "7" = some (extract_tweet_from_result res99) :=
  ⟨c4_resolve_target_and_fallback.1 detail42 "42" [] [] entry42 res42 rfl
      (by simp) (by decide) rfl rfl,
    c4_resolve_target_and_fallback.2 detailFb "7" entry99 [] res99 rfl
      (by decide) rfl⟩

/-- A tweet result whose id "421" has the C10 target "42" as a proper
prefix. -/
def res421 : TweetResultNode :=
  { legacy := { id_str := some "421", full_text := some "longer id" },
    core := { user_results := { result :=
      { legacy := { screen_name := some "carl", name := some "Carl" } } } } }

/-- The entry for tweet "421"; its `entryId` contains `tweet-42` as a
substring. -/
def entry421 : Entry :=
  { entryId := "tweet-421",
    content := { itemContent := { tweet_results := { result := some res421 } } } }

/-- A TweetDetail payload holding only the `tweet-421` entry. -/
def detail421 : TweetDetailData :=
  { threaded_conversation_with_injections_v2 :=
      { instructions := [{ type := "TimelineAddEntries", entries := [entry421] }] } }

/-- Claim C10: the entry lookup matches by substring containment, so
any entry whose `entryId` contains `tweet-<t>` is treated as the exact
match; concretely, resolving target "42" against the `tweet-421` entry
takes the match branch (not the first-entry fallback) and returns a
`ResolvedTweet` whose id "421" differs from the target "42". -/
theorem c10_substring_entry_match :
    (∀ (t : String) (e : Entry) (rest : List Entry) (r : TweetResultNode),
        strHasSubstr e.entryId ("tweet-" ++ t) = true → entryResult e = some r →
          scanEntries t (e :: rest) = some r) ∧
      scanEntries "42" [entry421] = some res421 ∧
      parse_tweet_detail detail421 "42" = some (extract_tweet_from_result res421) ∧
      (extract_tweet_from_result res421).id = "421" ∧
      (extract_tweet_from_result res421).id ≠ "42" := by
  refine ⟨?_, by decide, by decide, rfl, by decide⟩
  intro t e rest r he hr
  simp [scanEntries, he, hr]

/-- Witness for C10: the substring-match rule applied at the concrete
`tweet-421` entry with target "42". -/
theorem c10_substring_entry_match_witness :
    scanEntries "42" [entry421] = some res421 :=
  c10_substring_entry_match.1 "42" entry421 [] res421 (by decide) rfl
